import Mathlib

/-!
Shallow embedding of the yabridge Wine VST bridge core: the default
data-converter policy, the host-side session constructor, opcode dispatch,
architecture sniffing, socket endpoint name generation, and the event-loop
timer rescheduling rule, together with theorems settling the specified
properties.

Pointers into plugin memory are modelled as `Option (List Nat)`: `none` is a
null pointer, `some mem` a non-null pointer with `mem` the sequence of bytes
readable at it. Bytes are naturals (all operations here are comparisons and
copies, no modular arithmetic is exercised).
-/

namespace Yabridge

/-- Bytes of plugin memory. -/
abbrev Byte := Nat

/-- Closed payload variant used by the event codec: no payload (a null
pointer), a C string, a raw buffer with extra write-back capacity, and the
WantsString sentinel for a non-null but zeroed string buffer. -/
inductive EventPayload where
  | null : EventPayload
  | str : List Byte → EventPayload
  | buffer : List Byte → Nat → EventPayload
  | wantsString : EventPayload
  deriving DecidableEq

/-- Result of a forwarded event: the return value plus any out-payload to be
written back into the original callers buffer. -/
structure EventResult where
  return_value : Int
  payload : EventPayload
  deriving DecidableEq

/-- Null-terminated content starting at a pointer: the bytes strictly before
the first zero byte, i.e. what `std::string(c_string)` reads from memory
`mem`. -/
def cString (mem : List Byte) : List Byte := mem.takeWhile (fun b => b != 0)

/-- Embedding of `DefaultDataConverter::read` from `communication.cpp`: a null
`data` pointer gives no payload; otherwise `c_string[0]` (`mem.headD 0`)
decides between a string payload and the `WantsString` sentinel. The `opcode`,
`index` and `value` arguments are ignored, as in the source. -/
def DefaultDataConverter.read (_opcode _index : Int) (_value : Int) :
    Option (List Byte) → EventPayload
  | none => EventPayload.null
  | some mem =>
    if mem.headD 0 != 0 then EventPayload.str (cString mem)
    else EventPayload.wantsString

/-- Embedding of `std::copy(s.begin(), s.end(), output)`: overwrite the front
of `buf` with the bytes of `s`, one position at a time, leaving the rest of
`buf` unchanged. -/
def copyBytes : List Byte → List Byte → List Byte
  | [], buf => buf
  | _ :: _, [] => []
  | b :: rest, _ :: bt => b :: copyBytes rest bt

/-- Embedding of `DefaultDataConverter::write` from `communication.cpp`: a
string payload is copied into the destination buffer followed by one zero
terminator byte at the position just past the string (`output[s.size()] = 0`);
every other payload variant hits the `std::visit` catch-all and writes
nothing. -/
def DefaultDataConverter.write (_opcode : Int) (data : List Byte)
    (response : EventResult) : List Byte :=
  match response.payload with
  | EventPayload.str s => (copyBytes s data).set s.length 0
  | _ => data

/-- Word-size variants a plugin image can target, from `utils.h`. -/
inductive PluginArchitecture where
  | vst_32 : PluginArchitecture
  | vst_64 : PluginArchitecture
  deriving DecidableEq

/-- Errors thrown by `find_vst_architecture`: a wrong PE signature (the image
is not a valid .dll file), or an unrecognized machine-type field. -/
inductive VstArchError where
  | not_valid_dll : VstArchError
  | unsupported_architecture : Nat → VstArchError
  deriving DecidableEq

/-- Little-endian 16-bit read at offset `off` of a byte list (out-of-range
bytes read as zero). -/
def readU16LE (file : List Byte) (off : Nat) : Nat :=
  file.getD off 0 % 256 + 256 * (file.getD (off + 1) 0 % 256)

/-- Little-endian 32-bit read at offset `off` of a byte list. -/
def readU32LE (file : List Byte) (off : Nat) : Nat :=
  readU16LE file off + 65536 * readU16LE file (off + 2)

/-- The expected PE signature bytes `P`, `E`, 0, 0 read as a little-endian
32-bit value. -/
def expected_pe_signature : Nat := 0x00004550

/-- Embedding of `find_vst_architecture` from `utils.cpp`: read the PE
signature offset at `0x3c`, verify the PE signature there, then map the
2-byte machine-type field through the switch of the source (`0x014c` is
I386, `0x8664` is AMD64, `0x0000` is IMAGE_FILE_MACHINE_UNKNOWN); any other
machine type throws the unsupported-architecture error. -/
def find_vst_architecture (file : List Byte) :
    Except VstArchError PluginArchitecture :=
  let pe_signature_offset := readU32LE file 0x3c
  let pe_signature := readU32LE file pe_signature_offset
  let machine_type := readU16LE file (pe_signature_offset + 4)
  if pe_signature != expected_pe_signature then
    Except.error VstArchError.not_valid_dll
  else if machine_type = 0x014c then Except.ok PluginArchitecture.vst_32
  else if machine_type = 0x8664 then Except.ok PluginArchitecture.vst_64
  else if machine_type = 0x0000 then Except.ok PluginArchitecture.vst_64
  else Except.error (VstArchError.unsupported_architecture machine_type)

/-- Runner binary selection of `find_vst_host` from `utils.cpp`: the 32-bit
host binary name for a 32-bit image, the default host binary name otherwise
(the names themselves come from the generated `config.h`). -/
def vst_host_name (name64 name32 : String) (arch : PluginArchitecture) :
    String :=
  match arch with
  | PluginArchitecture.vst_32 => name32
  | PluginArchitecture.vst_64 => name64

/-- The close opcode. The VST enum header is external, but `vst-plugin.cpp`
states it explicitly: clean-up happens when we receive the `effClose` opcode
from the VST host, i.e. opcode 1. -/
def effClose : Int := 1

/-- Observable action of one `HostBridge::dispatch` call: either the session
was torn down locally (the `effClose` switch case runs `delete this` and
returns 0), or the call was forwarded over the dispatch channel with the
given arguments. -/
inductive DispatchAction where
  | closed : DispatchAction
  | forwarded (opcode index : Int) (value : Int) (data : Option (List Byte))
      (opt : Nat) : DispatchAction
  deriving DecidableEq

/-- Action taken by `HostBridge::dispatch` from `host-bridge.cpp`: the switch
intercepts `effClose` and every other opcode falls through to
`send_event(host_vst_dispatch, opcode, index, value, data, option)` with the
arguments unchanged. The float `option` argument is only ever passed through,
so it is modelled by its bit pattern `opt`. -/
def HostBridge.dispatchAction (opcode index : Int) (value : Int)
    (data : Option (List Byte)) (opt : Nat) : DispatchAction :=
  if opcode = effClose then DispatchAction.closed
  else DispatchAction.forwarded opcode index value data opt

/-- Return value of `HostBridge::dispatch`, parameterized by the behaviour
`send` of `send_event` on the dispatch channel: 0 for the intercepted close
opcode, the `send_event` result otherwise. -/
def HostBridge.dispatch
    (send : Int → Int → Int → Option (List Byte) → Nat → Int)
    (opcode index : Int) (value : Int) (data : Option (List Byte))
    (opt : Nat) : Int :=
  if opcode = effClose then 0
  else send opcode index value data opt

/-- The three socket channels accepted by the host-side session constructor. -/
inductive SocketChannel where
  | host_vst_dispatch : SocketChannel
  | vst_host_callback : SocketChannel
  | vst_host_aeffect : SocketChannel
  deriving DecidableEq

/-- Steps of the straight-line body of `HostBridge::HostBridge`. -/
inductive CtorStep where
  | accept (c : SocketChannel) : CtorStep
  | install_proxy_pointers : CtorStep
  | start_callback_thread : CtorStep
  | read_descriptor : CtorStep
  deriving DecidableEq

/-- Execution trace of the body of `HostBridge::HostBridge` from
`host-bridge.cpp`: three `socket_acceptor.accept` calls in source order, then
the `AEffect` proxy-pointer installation, then the start of the host-callback
loop thread, then the single `read_object(vst_host_aeffect, plugin)` that
reads the plugin descriptor. The body is straight-line code, so this list is
the trace of every execution of the constructor. -/
def hostBridgeCtorTrace : List CtorStep :=
  [ CtorStep.accept SocketChannel.host_vst_dispatch,
    CtorStep.accept SocketChannel.vst_host_callback,
    CtorStep.accept SocketChannel.vst_host_aeffect,
    CtorStep.install_proxy_pointers,
    CtorStep.start_callback_thread,
    CtorStep.read_descriptor ]

/-- Projection selecting the channel of an accept step. -/
def acceptedChannel : CtorStep → Option SocketChannel
  | CtorStep.accept c => some c
  | _ => none

/-- Values a function-pointer slot of the bridged `AEffect` can hold: unset,
or one of the five free proxy functions defined in `host-bridge.cpp`. -/
inductive FnSlot where
  | unset : FnSlot
  | dispatch_proxy : FnSlot
  | process_proxy : FnSlot
  | setParameter_proxy : FnSlot
  | getParameter_proxy : FnSlot
  | process_replacing_proxy : FnSlot
  deriving DecidableEq

/-- The serialized, non-pointer data fields of the `AEffect` descriptor (magic
tag, parameter and program counts, flags, ...), abstracted as an opaque
record since the VST header is external. -/
structure AEffectFields where
  fields : List Int
  deriving DecidableEq

/-- The cached `AEffect` plugin descriptor: five function-pointer slots, the
`ptr3` slot smuggling the owning `HostBridge` pointer (modelled as an object
identity), and the serialized data fields. -/
structure AEffect where
  dispatcher : FnSlot
  process : FnSlot
  setParameter : FnSlot
  getParameter : FnSlot
  processReplacing : FnSlot
  ptr3 : Option Nat
  fields : AEffectFields
  deriving DecidableEq

/-- Modelled from the spec: `read_object` is declared in `communication.h`,
which is not among the given sources. Per the spec, the descriptor is filled
in by the first read from the runner process while the cached
function-pointer slots installed by the constructor are never mutated
afterwards, so deserializing a received descriptor into `plugin` replaces
exactly the serialized data fields. -/
def read_object (wire : AEffectFields) (plugin : AEffect) : AEffect :=
  { plugin with fields := wire }

/-- Proxy-pointer installation block of `HostBridge::HostBridge`: `ptr3` gets
the `this` pointer (`self`) and the five slots get the five free proxy
functions. -/
def installProxyPointers (self : Nat) (plugin : AEffect) : AEffect :=
  { plugin with
      ptr3 := some self,
      dispatcher := FnSlot.dispatch_proxy,
      process := FnSlot.process_proxy,
      setParameter := FnSlot.setParameter_proxy,
      getParameter := FnSlot.getParameter_proxy,
      processReplacing := FnSlot.process_replacing_proxy }

/-- Net effect of `HostBridge::HostBridge` on the `plugin` member: install the
proxy pointers, then execute `plugin = read_object(vst_host_aeffect, plugin)`
with `wire` the descriptor data sent by the Wine process. -/
def hostBridgeConstructPlugin (self : Nat) (initial : AEffect)
    (wire : AEffectFields) : AEffect :=
  read_object wire (installProxyPointers self initial)

/-- The identifier alphabet `alphanumeric_characters` used for random socket
names: digits, upper-case letters, lower-case letters (62 characters). -/
def alphanumeric_characters : List Char :=
  [ '0', '1', '2', '3', '4', '5', '6', '7', '8', '9',
    'A', 'B', 'C', 'D', 'E', 'F', 'G', 'H', 'I', 'J', 'K', 'L', 'M',
    'N', 'O', 'P', 'Q', 'R', 'S', 'T', 'U', 'V', 'W', 'X', 'Y', 'Z',
    'a', 'b', 'c', 'd', 'e', 'f', 'g', 'h', 'i', 'j', 'k', 'l', 'm',
    'n', 'o', 'p', 'q', 'r', 's', 't', 'u', 'v', 'w', 'x', 'y', 'z' ]

/-- Population handed to `std::sample`: the source passes the range from
`alphanumeric_characters` to `alphanumeric_characters + strlen(...) - 1`,
i.e. the first 61 characters of the alphabet. -/
def sample_pool : List Char := alphanumeric_characters.take 61

/-- One 8-character random identifier: `std::sample(..., 8, rng)` on a
61-element population always yields exactly 8 characters of the population.
The mt19937 draw is abstracted as `sel`, giving the population index of each
of the 8 chosen characters. -/
def random_id (sel : Fin 8 → Fin 61) : List Char :=
  (List.finRange 8).map fun j => sample_pool.getD (sel j).val ' '

/-- Candidate path built by one iteration of `generate_endpoint_name` in
`host-bridge.cpp`: `fs::temp_directory_path() / "yabridge" /
(plugin_name + "-" + random_id + ".sock")`. -/
def endpoint_candidate (tmp plugin_name : String) (id : List Char) : String :=
  tmp ++ "/yabridge/" ++ plugin_name ++ "-" ++ String.mk id ++ ".sock"

/-- Embedding of the do/while loop of `generate_endpoint_name` from
`host-bridge.cpp`: build a candidate from the plugin base name and a fresh
8-character random identifier, retry while `fs::exists(candidate)`. The
filesystem is abstracted as the predicate `ex`, the successive rng draws as
`sel k`; the loop is given `fuel` iterations, returning `none` when fuel is
exhausted (the source loops until a free name is found). -/
def generate_endpoint_name (ex : String → Bool) (tmp plugin_name : String)
    (sel : Nat → Fin 8 → Fin 61) : Nat → Nat → Option String
  | _, 0 => none
  | k, fuel + 1 =>
    if ex (endpoint_candidate tmp plugin_name (random_id (sel k))) then
      generate_endpoint_name ex tmp plugin_name sel (k + 1) fuel
    else
      some (endpoint_candidate tmp plugin_name (random_id (sel k)))

/-- Candidate path built by one iteration of `generate_endpoint_base` in
`communication.cpp`: `get_temporary_directory() /
("yabridge-" + plugin_name + "-" + random_id)`. -/
def endpoint_base_candidate (tmp plugin_name : String) (id : List Char) :
    String :=
  tmp ++ "/yabridge-" ++ plugin_name ++ "-" ++ String.mk id

/-- Embedding of the do/while loop of `generate_endpoint_base` from
`communication.cpp`, with the same abstractions as `generate_endpoint_name`
(`tmp` stands for `get_temporary_directory()`, whose definition is outside
the given sources). -/
def generate_endpoint_base (ex : String → Bool) (tmp plugin_name : String)
    (sel : Nat → Fin 8 → Fin 61) : Nat → Nat → Option String
  | _, 0 => none
  | k, fuel + 1 =>
    if ex (endpoint_base_candidate tmp plugin_name (random_id (sel k))) then
      generate_endpoint_base ex tmp plugin_name sel (k + 1) fuel
    else
      some (endpoint_base_candidate tmp plugin_name (random_id (sel k)))

/-- Embedding of `event_loop_interval` from `wine-host/utils.h`:
`std::chrono::milliseconds(1000) / 60`, which under the integer division of
`std::chrono` is 16 milliseconds. All times here are in milliseconds. -/
def event_loop_interval : Nat := 1000 / 60

/-- Rescheduling rule of `MainContext::async_handle_events`: the new timer
expiry is `max(events_timer.expiry() + event_loop_interval, now + 5ms)`,
where `expiry` is the previous deadline and `now` the steady-clock time when
the handler rescheduled itself. -/
def next_expiry (expiry now : Nat) : Nat :=
  max (expiry + event_loop_interval) (now + 5)

/-- Deadline sequence of the self-rescheduling event-loop timer: the n-th
rescheduling happens at wall-clock time `now n` and moves the deadline from
`deadline_seq d0 now n` to its `next_expiry`. -/
def deadline_seq (d0 : Nat) (now : Nat → Nat) : Nat → Nat
  | 0 => d0
  | n + 1 => next_expiry (deadline_seq d0 now n) (now n)

/-- The session object created by `VSTPluginMain`; only its `plugin` member
is returned to the host. -/
structure PluginBridge where
  plugin : AEffect
  deriving DecidableEq

/-- Embedding of `VSTPluginMain` from `vst-plugin.cpp`: `construct` is the
outcome of `new PluginBridge(host_callback)` — `Except.ok` a fully
constructed bridge, or `Except.error` the message of a thrown construction
exception. On success the address of the plugin struct of the bridge is
returned; any construction exception is caught, logged and turned into a
null pointer (`none`). -/
def VSTPluginMain (construct : Except String PluginBridge) : Option AEffect :=
  match construct with
  | Except.ok bridge => some bridge.plugin
  | Except.error _ => none

/-- A minimal PE image whose machine-type field is 0x0000
(IMAGE_FILE_MACHINE_UNKNOWN): 0x3c stub bytes, the signature offset 0x40
stored at 0x3c, the PE signature at 0x40, and machine type 0 at 0x44. -/
def unknown_machine_file : List Byte :=
  List.replicate 0x3c 0 ++ [0x40, 0, 0, 0, 0x50, 0x45, 0, 0, 0, 0]

/-- A minimal PE image with machine type 0x014c (IMAGE_FILE_MACHINE_I386). -/
def i386_machine_file : List Byte :=
  List.replicate 0x3c 0 ++ [0x40, 0, 0, 0, 0x50, 0x45, 0, 0, 0x4c, 0x01]

/-- A minimal image whose four signature bytes are wrong (`M`, `Z`, 0, 0
instead of `P`, `E`, 0, 0). -/
def bad_signature_file : List Byte :=
  List.replicate 0x3c 0 ++ [0x40, 0, 0, 0, 0x4d, 0x5a, 0, 0, 0x4c, 0x01]

/-! Theorems. -/

/-- Copying a short-enough byte list into the front of a buffer keeps the
tail of the buffer. -/
theorem copyBytes_eq (s : List Byte) :
    ∀ buf : List Byte, s.length ≤ buf.length →
      copyBytes s buf = s ++ buf.drop s.length := by
  induction s with
  | nil => intro buf _; simp [copyBytes]
  | cons b rest ih =>
    intro buf h
    cases buf with
    | nil => simp at h
    | cons x xs =>
      simp only [copyBytes, List.length_cons, List.drop_succ_cons,
        List.cons_append, List.cons.injEq, true_and]
      exact ih xs (by simpa using h)

/-- Setting the element just past a prefix updates the head of the suffix. -/
theorem set_append_length (l : List Byte) :
    ∀ (m : List Byte) (a : Byte), (l ++ m).set l.length a = l ++ m.set 0 a := by
  induction l with
  | nil => intro m a; rfl
  | cons x xs ih => intro m a; simp [List.set, ih]

/-- Claim C1: the default data-converter read classification — a null data
pointer yields the no-payload variant; a non-null pointer with non-zero first
byte yields a string payload equal to the null-terminated content at that
pointer; a non-null pointer with zero first byte yields the WantsString
sentinel and never any string payload. -/
theorem claim_C1_default_read_classification
    (opcode index value : Int) (data : Option (List Byte)) :
    (data = none →
      DefaultDataConverter.read opcode index value data = EventPayload.null) ∧
    (∀ mem, data = some mem → 0 ∈ mem →
      (mem.headD 0 ≠ 0 →
        DefaultDataConverter.read opcode index value data
          = EventPayload.str (cString mem)) ∧
      (mem.headD 0 = 0 →
        DefaultDataConverter.read opcode index value data
          = EventPayload.wantsString ∧
        ∀ s, DefaultDataConverter.read opcode index value data
          ≠ EventPayload.str s)) := by
  constructor
  · intro h; subst h; rfl
  · intro mem h _
    subst h
    constructor
    · intro hne
      have hb : (mem.headD 0 != 0) = true := bne_iff_ne.mpr hne
      simp only [DefaultDataConverter.read]
      rw [if_pos hb]
    · intro heq
      have hb : ¬ ((mem.headD 0 != 0) = true) := by
        simp only [heq]; decide
      constructor
      · simp only [DefaultDataConverter.read]
        rw [if_neg hb]
      · intro s
        simp only [DefaultDataConverter.read]
        rw [if_neg hb]
        exact fun hcontra => EventPayload.noConfusion hcontra

/-- Witness for C1 at concrete inputs: a zeroed two-byte buffer is classified
as the sentinel, and a buffer holding the C string "A" as that string. -/
theorem claim_C1_witness :
    DefaultDataConverter.read 0 0 0 (some [0, 65]) = EventPayload.wantsString ∧
    DefaultDataConverter.read 0 0 0 (some [65, 0])
      = EventPayload.str [65] := by
  constructor
  · exact (((claim_C1_default_read_classification 0 0 0 (some [0, 65])).2
      [0, 65] rfl (by decide)).2 (by decide)).1
  · have h := ((claim_C1_default_read_classification 0 0 0 (some [65, 0])).2
      [65, 0] rfl (by decide)).1 (by decide)
    simpa [cString] using h

/-- Claim C2: `HostBridge::dispatch` intercepts the close opcode (1) locally,
returning 0 with a result independent of `send_event`, and forwards every
other opcode with all five arguments unchanged, returning the `send_event`
result. -/
theorem claim_C2_dispatch_close_interception
    (send : Int → Int → Int → Option (List Byte) → Nat → Int)
    (opcode index : Int) (value : Int) (data : Option (List Byte))
    (opt : Nat) :
    (opcode = effClose →
      HostBridge.dispatchAction opcode index value data opt
        = DispatchAction.closed ∧
      HostBridge.dispatch send opcode index value data opt = 0 ∧
      ∀ send2, HostBridge.dispatch send opcode index value data opt
        = HostBridge.dispatch send2 opcode index value data opt) ∧
    (opcode ≠ effClose →
      HostBridge.dispatchAction opcode index value data opt
        = DispatchAction.forwarded opcode index value data opt ∧
      HostBridge.dispatch send opcode index value data opt
        = send opcode index value data opt) := by
  constructor
  · intro h
    refine ⟨?_, ?_, ?_⟩ <;>
      simp [HostBridge.dispatchAction, HostBridge.dispatch, h]
  · intro h
    constructor <;>
      simp [HostBridge.dispatchAction, HostBridge.dispatch, h]

/-- Witness for C2 at concrete inputs: opcode 1 returns 0 without consulting
`send_event`, opcode 2 returns the `send_event` result. -/
theorem claim_C2_witness :
    HostBridge.dispatch (fun _ _ _ _ _ => 42) 1 3 4 none 5 = 0 ∧
    HostBridge.dispatch (fun _ _ _ _ _ => 42) 2 3 4 none 5 = 42 :=
  ⟨((claim_C2_dispatch_close_interception (fun _ _ _ _ _ => 42)
      1 3 4 none 5).1 rfl).2.1,
   ((claim_C2_dispatch_close_interception (fun _ _ _ _ _ => 42)
      2 3 4 none 5).2 (by decide)).2⟩

/-- Claim C3: in the constructor trace, the host-callback loop thread is
started strictly before the descriptor read, and the descriptor read occurs
exactly once. -/
theorem claim_C3_callback_loop_before_descriptor_read :
    hostBridgeCtorTrace.indexOf CtorStep.start_callback_thread
      < hostBridgeCtorTrace.indexOf CtorStep.read_descriptor ∧
    hostBridgeCtorTrace.count CtorStep.read_descriptor = 1 := by decide

/-- Claim C4: the host-side session accepts its channels in the fixed order
dispatch, callback, descriptor transfer; the trace is a constant of the
straight-line constructor, hence identical in every execution. -/
theorem claim_C4_channel_accept_order :
    hostBridgeCtorTrace.filterMap acceptedChannel
      = [SocketChannel.host_vst_dispatch, SocketChannel.vst_host_callback,
         SocketChannel.vst_host_aeffect] := by decide

/-- Counterexample to claim C5 as stated: `unknown_machine_file` has a valid
PE signature and a machine-type field of 0x0000, which is neither the 32-bit
constant 0x014c nor the 64-bit constant 0x8664, yet `find_vst_architecture`
returns the 64-bit variant instead of failing with an
unsupported-architecture error. -/
theorem claim_C5_counterexample :
    readU16LE unknown_machine_file
        (readU32LE unknown_machine_file 0x3c + 4) = 0 ∧
    (0 : Nat) ≠ 0x014c ∧ (0 : Nat) ≠ 0x8664 ∧
    find_vst_architecture unknown_machine_file
      = Except.ok PluginArchitecture.vst_64 :=
  ⟨by decide, by decide, by decide, rfl⟩

/-- Claim C5 amended: machine type 0x014c yields the 32-bit variant; machine
type 0x8664 — or the unknown-machine constant 0x0000, which the source
explicitly maps to the 64-bit path — yields the 64-bit variant; any machine
type other than these three fails with an unsupported-architecture error; a
wrong PE signature fails with the corrupt-file error; and the sniffed variant
selects the matching runner binary name. -/
theorem claim_C5_amended_architecture_sniffing (file : List Byte)
    (off sig machine_type : Nat)
    (hoff : off = readU32LE file 0x3c)
    (hsig : sig = readU32LE file off)
    (hmach : machine_type = readU16LE file (off + 4)) :
    (sig ≠ expected_pe_signature →
      find_vst_architecture file = Except.error VstArchError.not_valid_dll) ∧
    (sig = expected_pe_signature →
      (machine_type = 0x014c →
        find_vst_architecture file = Except.ok PluginArchitecture.vst_32) ∧
      (machine_type = 0x8664 ∨ machine_type = 0x0000 →
        find_vst_architecture file = Except.ok PluginArchitecture.vst_64) ∧
      (machine_type ≠ 0x014c → machine_type ≠ 0x8664 → machine_type ≠ 0x0000 →
        find_vst_architecture file
          = Except.error (VstArchError.unsupported_architecture
              machine_type))) ∧
    (∀ name64 name32,
      vst_host_name name64 name32 PluginArchitecture.vst_32 = name32 ∧
      vst_host_name name64 name32 PluginArchitecture.vst_64 = name64) := by
  subst hoff
  subst hsig
  subst hmach
  refine ⟨?_, ?_, fun name64 name32 => ⟨rfl, rfl⟩⟩
  · intro hne
    simp only [find_vst_architecture]
    rw [if_pos (bne_iff_ne.mpr hne)]
  · intro hsig
    have hb : ¬ ((readU32LE file (readU32LE file 0x3c) != expected_pe_signature)
        = true) := by
      simp only [hsig]; decide
    refine ⟨?_, ?_, ?_⟩
    · intro h32
      simp only [find_vst_architecture]
      rw [if_neg hb, if_pos h32]
    · rintro (h64 | h0)
      · simp only [find_vst_architecture]
        rw [if_neg hb, if_neg (by rw [h64]; decide), if_pos h64]
      · simp only [find_vst_architecture]
        rw [if_neg hb, if_neg (by rw [h0]; decide),
          if_neg (by rw [h0]; decide), if_pos h0]
    · intro h1 h2 h3
      simp only [find_vst_architecture]
      rw [if_neg hb, if_neg h1, if_neg h2, if_neg h3]

/-- Witness for amended C5 at concrete inputs: a 0x014c image is classified
32-bit and selects the 32-bit runner name, and a wrong-signature image is
rejected as not a valid .dll file. -/
theorem claim_C5_witness :
    find_vst_architecture i386_machine_file
      = Except.ok PluginArchitecture.vst_32 ∧
    vst_host_name "yabridge-host.exe" "yabridge-host-32.exe"
      PluginArchitecture.vst_32 = "yabridge-host-32.exe" ∧
    find_vst_architecture bad_signature_file
      = Except.error VstArchError.not_valid_dll :=
  ⟨((claim_C5_amended_architecture_sniffing i386_machine_file
        0x40 expected_pe_signature 0x014c
        (by decide) (by decide) (by decide)).2.1 rfl).1 rfl,
   ((claim_C5_amended_architecture_sniffing i386_machine_file
        0x40 expected_pe_signature 0x014c
        (by decide) (by decide) (by decide)).2.2
      "yabridge-host.exe" "yabridge-host-32.exe").1,
   (claim_C5_amended_architecture_sniffing bad_signature_file
        0x40 0x00005a4d 0x014c
        (by decide) (by decide) (by decide)).1 (by decide)⟩

/-- Claim C6: for every wire descriptor received from the runner process, the
constructed plugin descriptor carries exactly the proxy function pointers and
the session back-pointer installed during construction — the read leaves the
installed slots unchanged — and the installation step occurs exactly once in
the constructor trace. -/
theorem claim_C6_descriptor_slots_install_once
    (self : Nat) (initial : AEffect) (wire : AEffectFields) :
    (hostBridgeConstructPlugin self initial wire).dispatcher
        = FnSlot.dispatch_proxy ∧
    (hostBridgeConstructPlugin self initial wire).process
        = FnSlot.process_proxy ∧
    (hostBridgeConstructPlugin self initial wire).setParameter
        = FnSlot.setParameter_proxy ∧
    (hostBridgeConstructPlugin self initial wire).getParameter
        = FnSlot.getParameter_proxy ∧
    (hostBridgeConstructPlugin self initial wire).processReplacing
        = FnSlot.process_replacing_proxy ∧
    (hostBridgeConstructPlugin self initial wire).ptr3 = some self ∧
    (∀ q : AEffect,
      (read_object wire q).dispatcher = q.dispatcher ∧
      (read_object wire q).process = q.process ∧
      (read_object wire q).setParameter = q.setParameter ∧
      (read_object wire q).getParameter = q.getParameter ∧
      (read_object wire q).processReplacing = q.processReplacing ∧
      (read_object wire q).ptr3 = q.ptr3) ∧
    hostBridgeCtorTrace.count CtorStep.install_proxy_pointers = 1 :=
  ⟨rfl, rfl, rfl, rfl, rfl, rfl,
   fun _ => ⟨rfl, rfl, rfl, rfl, rfl, rfl⟩, by decide⟩

/-- Claim C7: the default write-back policy copies a string payload of length
n into the destination buffer followed by one zero terminator at position n,
leaving the remainder of a sufficiently large buffer unchanged, and leaves
the buffer completely unchanged for every non-string payload variant. -/
theorem claim_C7_write_back_policy (opcode : Int) (data : List Byte)
    (response : EventResult) :
    (∀ s, response.payload = EventPayload.str s → s.length + 1 ≤ data.length →
      DefaultDataConverter.write opcode data response
        = s ++ 0 :: data.drop (s.length + 1)) ∧
    ((∀ s, response.payload ≠ EventPayload.str s) →
      DefaultDataConverter.write opcode data response = data) := by
  constructor
  · intro s hp h
    have hdrop : data.drop s.length ≠ [] := by
      intro hnil
      have := List.drop_eq_nil_iff.mp hnil
      omega
    simp only [DefaultDataConverter.write, hp]
    rw [copyBytes_eq s data (by omega), set_append_length]
    cases hd : data.drop s.length with
    | nil => exact absurd hd hdrop
    | cons y ys =>
      have htail : ys = data.drop (s.length + 1) := by
        have := List.tail_drop data s.length
        rw [hd] at this
        simpa using this
      rw [List.set_cons_zero, htail]
  · intro h
    cases hp : response.payload with
    | null => simp [DefaultDataConverter.write, hp]
    | str s => exact absurd hp (h s)
    | buffer b n => simp [DefaultDataConverter.write, hp]
    | wantsString => simp [DefaultDataConverter.write, hp]

/-- Witness for C7 at concrete inputs: writing the string byte 65 into the
buffer [1, 2, 3] yields [65, 0, 3], and a sentinel payload leaves the buffer
untouched. -/
theorem claim_C7_witness :
    DefaultDataConverter.write 0 [1, 2, 3]
      (EventResult.mk 0 (EventPayload.str [65])) = [65, 0, 3] ∧
    DefaultDataConverter.write 0 [1, 2, 3]
      (EventResult.mk 0 EventPayload.wantsString) = [1, 2, 3] := by
  constructor
  · have h := (claim_C7_write_back_policy 0 [1, 2, 3]
      (EventResult.mk 0 (EventPayload.str [65]))).1 [65] rfl (by decide)
    simpa using h
  · exact (claim_C7_write_back_policy 0 [1, 2, 3]
      (EventResult.mk 0 EventPayload.wantsString)).2
      (fun s h => EventPayload.noConfusion h)

/-- Claim C8: `VSTPluginMain` returns a null descriptor pointer whenever the
session construction throws, and the plugin struct of the constructed bridge
otherwise; an error outcome never exposes any session object. -/
theorem claim_C8_construction_failure_returns_null
    (construct : Except String PluginBridge) :
    (∀ e, construct = Except.error e → VSTPluginMain construct = none) ∧
    (∀ bridge, construct = Except.ok bridge →
      VSTPluginMain construct = some bridge.plugin) := by
  constructor
  · intro e h; subst h; rfl
  · intro bridge h; subst h; rfl

/-- Witness for C8 at a concrete input: a discovery failure during
construction yields a null descriptor. -/
theorem claim_C8_witness :
    VSTPluginMain (Except.error "Could not locate yabridge-host.exe")
      = none :=
  (claim_C8_construction_failure_returns_null
    (Except.error "Could not locate yabridge-host.exe")).1
    "Could not locate yabridge-host.exe" rfl

/-- Every character of the 61-element sample population is alphanumeric. -/
theorem sample_pool_getD_mem :
    ∀ i : Fin 61, sample_pool.getD i.val ' ' ∈ alphanumeric_characters := by
  decide

/-- A random identifier always has exactly 8 characters. -/
theorem random_id_length (sel : Fin 8 → Fin 61) :
    (random_id sel).length = 8 := by
  simp [random_id]

/-- Every character of a random identifier is alphanumeric. -/
theorem random_id_mem_alphanumeric (sel : Fin 8 → Fin 61) :
    ∀ c ∈ random_id sel, c ∈ alphanumeric_characters := by
  intro c hc
  simp only [random_id, List.mem_map] at hc
  obtain ⟨j, _, rfl⟩ := hc
  exact sample_pool_getD_mem (sel j)

/-- Loop invariant of `generate_endpoint_name`: a returned path was checked
free at generation time and is a candidate built from some rng draw. -/
theorem generate_endpoint_name_spec (ex : String → Bool)
    (tmp plugin_name : String) (sel : Nat → Fin 8 → Fin 61) :
    ∀ fuel k p,
      generate_endpoint_name ex tmp plugin_name sel k fuel = some p →
        ex p = false ∧
        ∃ j, p = endpoint_candidate tmp plugin_name (random_id (sel j)) := by
  intro fuel
  induction fuel with
  | zero => intro k p h; exact Option.noConfusion h
  | succ n ih =>
    intro k p h
    simp only [generate_endpoint_name] at h
    by_cases hex :
        ex (endpoint_candidate tmp plugin_name (random_id (sel k))) = true
    · rw [if_pos hex] at h
      exact ih (k + 1) p h
    · rw [if_neg hex] at h
      obtain rfl := Option.some.inj h
      exact ⟨Bool.not_eq_true _ ▸ Bool.of_not_eq_true hex, k, rfl⟩

/-- Loop invariant of `generate_endpoint_base`, as for
`generate_endpoint_name`. -/
theorem generate_endpoint_base_spec (ex : String → Bool)
    (tmp plugin_name : String) (sel : Nat → Fin 8 → Fin 61) :
    ∀ fuel k p,
      generate_endpoint_base ex tmp plugin_name sel k fuel = some p →
        ex p = false ∧
        ∃ j, p = endpoint_base_candidate tmp plugin_name
          (random_id (sel j)) := by
  intro fuel
  induction fuel with
  | zero => intro k p h; exact Option.noConfusion h
  | succ n ih =>
    intro k p h
    simp only [generate_endpoint_base] at h
    by_cases hex :
        ex (endpoint_base_candidate tmp plugin_name (random_id (sel k))) = true
    · rw [if_pos hex] at h
      exact ih (k + 1) p h
    · rw [if_neg hex] at h
      obtain rfl := Option.some.inj h
      exact ⟨Bool.not_eq_true _ ▸ Bool.of_not_eq_true hex, k, rfl⟩

/-- Claim C9: every path returned by the endpoint generators is built from
the plugin base name plus an 8-character alphanumeric random identifier
under the temporary subdirectory, and was free on the (abstracted)
filesystem at generation time. -/
theorem claim_C9_endpoint_generation (ex : String → Bool)
    (tmp plugin_name : String) (sel : Nat → Fin 8 → Fin 61)
    (fuel k : Nat) (p : String) :
    (generate_endpoint_name ex tmp plugin_name sel k fuel = some p →
      ex p = false ∧
      ∃ j, p = endpoint_candidate tmp plugin_name (random_id (sel j)) ∧
        (random_id (sel j)).length = 8 ∧
        ∀ c ∈ random_id (sel j), c ∈ alphanumeric_characters) ∧
    (generate_endpoint_base ex tmp plugin_name sel k fuel = some p →
      ex p = false ∧
      ∃ j, p = endpoint_base_candidate tmp plugin_name (random_id (sel j)) ∧
        (random_id (sel j)).length = 8 ∧
        ∀ c ∈ random_id (sel j), c ∈ alphanumeric_characters) := by
  constructor
  · intro h
    obtain ⟨hfree, j, hp⟩ :=
      generate_endpoint_name_spec ex tmp plugin_name sel fuel k p h
    exact ⟨hfree, j, hp, random_id_length (sel j),
      random_id_mem_alphanumeric (sel j)⟩
  · intro h
    obtain ⟨hfree, j, hp⟩ :=
      generate_endpoint_base_spec ex tmp plugin_name sel fuel k p h
    exact ⟨hfree, j, hp, random_id_length (sel j),
      random_id_mem_alphanumeric (sel j)⟩

/-- Witness for C9 at concrete inputs: on an empty filesystem with a constant
rng draw, the generator returns the expected fresh path in one iteration. -/
theorem claim_C9_witness :
    (fun _ : String => false) "/tmp/yabridge/plugin-00000000.sock" = false ∧
    ∃ _j : Nat, "/tmp/yabridge/plugin-00000000.sock"
        = endpoint_candidate "/tmp" "plugin"
            (random_id (fun _ => (0 : Fin 61))) ∧
      (random_id (fun _ => (0 : Fin 61))).length = 8 ∧
      ∀ c ∈ random_id (fun _ => (0 : Fin 61)),
        c ∈ alphanumeric_characters :=
  (claim_C9_endpoint_generation (fun _ => false) "/tmp" "plugin"
    (fun _ _ => (0 : Fin 61)) 1 0 "/tmp/yabridge/plugin-00000000.sock").1
    (by decide)

/-- Claim C10: each rescheduling of the event-loop timer moves the deadline
to the maximum of the previous deadline plus the fixed 1000/60-millisecond
interval and the current time plus the 5-millisecond minimum spacing: a fast
handler keeps the cadence relative to the previous deadline, and the new
deadline is never closer than the minimum spacing to the current time. -/
theorem claim_C10_timer_rescheduling (d0 : Nat) (now : Nat → Nat) (n : Nat) :
    deadline_seq d0 now (n + 1)
      = max (deadline_seq d0 now n + event_loop_interval) (now n + 5) ∧
    (now n + 5 ≤ deadline_seq d0 now n + event_loop_interval →
      deadline_seq d0 now (n + 1)
        = deadline_seq d0 now n + event_loop_interval) ∧
    now n + 5 ≤ deadline_seq d0 now (n + 1) ∧
    event_loop_interval = 1000 / 60 := by
  refine ⟨rfl, fun h => ?_, ?_, rfl⟩
  · simp only [deadline_seq, next_expiry]
    exact Nat.max_eq_left h
  · simp only [deadline_seq, next_expiry]
    exact Nat.le_max_right _ _

/-- Witness for C10 at concrete inputs: from deadline 100 with a handler that
finished at time 0, the next deadline is 100 + 16 = 116 and respects the
minimum spacing. -/
theorem claim_C10_witness :
    deadline_seq 100 (fun _ => 0) 1 = 100 + event_loop_interval ∧
    (fun _ : Nat => (0 : Nat)) 0 + 5 ≤ deadline_seq 100 (fun _ => 0) 1 :=
  ⟨(claim_C10_timer_rescheduling 100 (fun _ => 0) 0).2.1 (by decide),
   (claim_C10_timer_rescheduling 100 (fun _ => 0) 0).2.2.1⟩

end Yabridge
